import Mathlib

/-!
Verification development for the kaplay-rapier physics plugin
(`src/index.ts`).  The TypeScript source is shallowly embedded over `ℚ`
(the source computes with IEEE doubles; all claims here are exact
algebraic/structural facts, so rationals model them faithfully).

Structure of the embedding:
* coordinate transforms (`anchorToCenter`, `translateAnchorToCenter`,
  `translateCenterToAnchor`);
* the body adapter (`ensureBody`, accessors, `destroy`) over an explicit
  world state;
* the joint adapter (`rapierJoint`);
* the fixed-timestep stepper loop (`stepLoop`, `onUpdateFrame`).
-/

namespace KaplayRapier

/-- A 2-D vector, mirroring rapier's `Vector2` / kaplay's `Vec2`. -/
structure V2 where
  x : ℚ
  y : ℚ
deriving DecidableEq, Repr

/-- The nine named anchors of kaplay's `Anchor` string union. -/
inductive NamedAnchor where
  | bot | botleft | botright
  | center | left | right
  | top | topleft | topright
deriving DecidableEq, Repr

/-- kaplay's `Anchor` type: a named anchor string or a custom `Vec2`. -/
inductive Anchor where
  | named (a : NamedAnchor)
  | point (p : V2)
deriving DecidableEq, Repr

/-- The `anchorToCenter` record of `src/index.ts` (lines 22-34): the fixed
fractional delta for each named anchor. -/
def anchorToCenter : NamedAnchor → V2
  | .bot      => ⟨0, -(1/2)⟩
  | .botleft  => ⟨1/2, -(1/2)⟩
  | .botright => ⟨-(1/2), -(1/2)⟩
  | .center   => ⟨0, 0⟩
  | .left     => ⟨1/2, 0⟩
  | .right    => ⟨-(1/2), 0⟩
  | .top      => ⟨0, 1/2⟩
  | .topleft  => ⟨1/2, 1/2⟩
  | .topright => ⟨-(1/2), 1/2⟩

/-- The delta computation shared by both transform functions: the
`typeof anchor === "string"` branch reads the table, the custom-point
branch computes `(0.5 - anchor.x, 0.5 - anchor.y)`. -/
def anchorDelta : Anchor → V2
  | .named a => anchorToCenter a
  | .point p => ⟨1/2 - p.x, 1/2 - p.y⟩

/-- Shape descriptor of a game object: kaplay's `rect`, `circle` and
`polygon` components, or no shape component at all. -/
inductive Shape where
  | rect (width height : ℚ)
  | circle (radius : ℚ)
  | polygon (pts : List V2)
  | shapeless
deriving DecidableEq, Repr

/-- The slice of a kaplay `GameObj` that the plugin reads: shape, position,
optional anchor and rotation angle. -/
structure GameObj where
  shape : Shape
  pos : V2
  anchor : Option Anchor
  angle : ℚ
deriving DecidableEq, Repr

/-- `obj.is("polygon")`. -/
def GameObj.isPolygon (o : GameObj) : Bool :=
  match o.shape with
  | .polygon _ => true
  | _ => false

/-- `obj.is("circle")`. -/
def GameObj.isCircle (o : GameObj) : Bool :=
  match o.shape with
  | .circle _ => true
  | _ => false

/-- `obj.is("polygon") || obj.is("rect") || obj.is("circle")`, the
`isVisible` computation of `ensureBody` and `update`. -/
def GameObj.isVisible (o : GameObj) : Bool :=
  match o.shape with
  | .shapeless => false
  | _ => true

/-- Axis-aligned bounding-box size of a shape, modelling the host engine's
`renderArea().bbox()` query (an external kaplay interface): a rect is its
own bbox, a circle of radius `r` has a `2r × 2r` bbox, a polygon's bbox
spans the extremes of its vertices. -/
def shapeBBoxSize : Shape → V2
  | .rect w h => ⟨w, h⟩
  | .circle r => ⟨2 * r, 2 * r⟩
  | .polygon [] => ⟨0, 0⟩
  | .polygon (p :: ps) =>
      ⟨(ps.foldl (fun m q => max m q.x) p.x) - (ps.foldl (fun m q => min m q.x) p.x),
       (ps.foldl (fun m q => max m q.y) p.y) - (ps.foldl (fun m q => min m q.y) p.y)⟩
  | .shapeless => ⟨0, 0⟩

/-- The `renderArea` local of the transform functions: the object's bbox
when `isVisible`, else the zero rect `new k.Rect(k.vec2(0,0), 0, 0)`. -/
def bboxSize (o : GameObj) (isVisible : Bool) : V2 :=
  if isVisible then shapeBBoxSize o.shape else ⟨0, 0⟩

/-- `getDefaultAnchorFor` (lines 36-40): `"center"` for circles,
`"topleft"` otherwise. -/
def getDefaultAnchorFor (o : GameObj) : Anchor :=
  if o.isCircle then .named .center else .named .topleft

/-- `translateAnchorToCenter` (lines 42-66): anchor-relative position to
center-of-mass position.  Adds `renderArea * delta` to the position. -/
def translateAnchorToCenter (obj : GameObj) (isVisible : Bool) : V2 :=
  let renderArea := bboxSize obj isVisible
  let anchor := obj.anchor.getD (getDefaultAnchorFor obj)
  let d := anchorDelta anchor
  ⟨obj.pos.x + renderArea.x * d.x, obj.pos.y + renderArea.y * d.y⟩

/-- `translateCenterToAnchor` (lines 68-99): center-of-mass position back
to anchor-relative position.  For polygon objects it returns the input
unchanged (polygons cannot be anchored in kaplay yet); otherwise it adds
`renderArea * (-delta)`. -/
def translateCenterToAnchor (pos : V2) (obj : GameObj) (isVisible : Bool) : V2 :=
  if obj.isPolygon then ⟨pos.x, pos.y⟩
  else
    let renderArea := bboxSize obj isVisible
    let anchor := obj.anchor.getD (getDefaultAnchorFor obj)
    let d := anchorDelta anchor
    ⟨pos.x + renderArea.x * -d.x, pos.y + renderArea.y * -d.y⟩

/-- Structure extensionality for `V2`. -/
theorem V2.ext_mk {a b c d : ℚ} (hx : a = c) (hy : b = d) : V2.mk a b = V2.mk c d := by
  subst hx; subst hy; rfl

/-- Claim C1, counterexample.  For a polygon-flagged object (triangle with
bbox 4×4, default anchor `topleft`, position (0,0)), `translateAnchorToCenter`
is not the identity on the position (it yields (2,2)), and the round-trip
`toAnchor(toCenter(p))` yields (2,2) ≠ p as well: the code's `toCenter`
has no polygon exemption, only `toAnchor` does. -/
theorem c1_polygon_roundtrip_counterexample :
    translateAnchorToCenter
        ⟨.polygon [⟨0, 0⟩, ⟨4, 0⟩, ⟨0, 4⟩], ⟨0, 0⟩, none, 0⟩ true ≠ (⟨0, 0⟩ : V2) ∧
    translateCenterToAnchor
        (translateAnchorToCenter
          ⟨.polygon [⟨0, 0⟩, ⟨4, 0⟩, ⟨0, 4⟩], ⟨0, 0⟩, none, 0⟩ true)
        ⟨.polygon [⟨0, 0⟩, ⟨4, 0⟩, ⟨0, 4⟩], ⟨0, 0⟩, none, 0⟩ true ≠ (⟨0, 0⟩ : V2) := by
  have h : translateAnchorToCenter
      ⟨.polygon [⟨0, 0⟩, ⟨4, 0⟩, ⟨0, 4⟩], ⟨0, 0⟩, none, 0⟩ true = (⟨2, 2⟩ : V2) := by
    simp only [translateAnchorToCenter, bboxSize, shapeBBoxSize, getDefaultAnchorFor,
      GameObj.isCircle, anchorDelta, anchorToCenter, Option.getD, List.foldl_cons,
      List.foldl_nil, if_true]
    exact V2.ext_mk (by norm_num) (by norm_num)
  refine ⟨?_, ?_⟩
  · rw [h]
    intro hc
    exact absurd (congrArg V2.x hc) (by norm_num)
  · have h2 : translateCenterToAnchor (⟨2, 2⟩ : V2)
        ⟨.polygon [⟨0, 0⟩, ⟨4, 0⟩, ⟨0, 4⟩], ⟨0, 0⟩, none, 0⟩ true = (⟨2, 2⟩ : V2) := by
      simp [translateCenterToAnchor, GameObj.isPolygon]
    rw [h, h2]
    intro hc
    exact absurd (congrArg V2.x hc) (by norm_num)

/-- Claim C1, amended.  For every non-polygon object the round-trip
`translateCenterToAnchor (translateAnchorToCenter p)` recovers the
position exactly; for every polygon-flagged object only
`translateCenterToAnchor` is the identity (`translateAnchorToCenter`
still applies the anchor offset, so polygons do not round-trip in
general). -/
theorem c1_roundtrip (obj : GameObj) (isVis : Bool) :
    (obj.isPolygon = false →
      translateCenterToAnchor (translateAnchorToCenter obj isVis) obj isVis = obj.pos) ∧
    (obj.isPolygon = true → ∀ p : V2, translateCenterToAnchor p obj isVis = p) := by
  constructor
  · intro h
    obtain ⟨s, ⟨px, py⟩, a, ang⟩ := obj
    simp only [translateCenterToAnchor, translateAnchorToCenter, h, Bool.false_eq_true,
      if_false]
    exact V2.ext_mk (by ring) (by ring)
  · intro h p
    obtain ⟨px, py⟩ := p
    simp only [translateCenterToAnchor, h, if_true]

/-- Witness for `c1_roundtrip`: a 4×6 rect anchored `center` at (1,2)
round-trips, and a polygon object leaves (5,6) unchanged under
`translateCenterToAnchor`. -/
theorem c1_roundtrip_witness :
    translateCenterToAnchor
        (translateAnchorToCenter ⟨.rect 4 6, ⟨1, 2⟩, some (.named .center), 0⟩ true)
        ⟨.rect 4 6, ⟨1, 2⟩, some (.named .center), 0⟩ true = (⟨1, 2⟩ : V2) ∧
    translateCenterToAnchor ⟨5, 6⟩
        ⟨.polygon [⟨0, 0⟩, ⟨4, 0⟩, ⟨0, 4⟩], ⟨0, 0⟩, none, 0⟩ true = (⟨5, 6⟩ : V2) :=
  ⟨(c1_roundtrip ⟨.rect 4 6, ⟨1, 2⟩, some (.named .center), 0⟩ true).1 rfl,
   (c1_roundtrip ⟨.polygon [⟨0, 0⟩, ⟨4, 0⟩, ⟨0, 4⟩], ⟨0, 0⟩, none, 0⟩ true).2 rfl ⟨5, 6⟩⟩

/-- Claim C6.  The named-anchor deltas match the fixed table of
`anchorToCenter`; a custom anchor point `(ax, ay)` maps to delta
`(0.5-ax, 0.5-ay)`; `translateAnchorToCenter` returns
`position + delta ⊙ bboxSize`; and a shapeless object has bbox size
(0,0), making the transform the identity. -/
theorem c6_anchor_table :
    (anchorToCenter .center = ⟨0, 0⟩ ∧ anchorToCenter .topleft = ⟨1/2, 1/2⟩ ∧
     anchorToCenter .botright = ⟨-(1/2), -(1/2)⟩ ∧ anchorToCenter .top = ⟨0, 1/2⟩ ∧
     anchorToCenter .topright = ⟨-(1/2), 1/2⟩ ∧ anchorToCenter .left = ⟨1/2, 0⟩ ∧
     anchorToCenter .right = ⟨-(1/2), 0⟩ ∧ anchorToCenter .bot = ⟨0, -(1/2)⟩ ∧
     anchorToCenter .botleft = ⟨1/2, -(1/2)⟩) ∧
    (∀ ax ay : ℚ, anchorDelta (.point ⟨ax, ay⟩) = ⟨1/2 - ax, 1/2 - ay⟩) ∧
    (∀ (obj : GameObj) (isVis : Bool),
      translateAnchorToCenter obj isVis =
        ⟨obj.pos.x + (anchorDelta (obj.anchor.getD (getDefaultAnchorFor obj))).x
            * (bboxSize obj isVis).x,
         obj.pos.y + (anchorDelta (obj.anchor.getD (getDefaultAnchorFor obj))).y
            * (bboxSize obj isVis).y⟩) ∧
    (∀ obj : GameObj, obj.shape = .shapeless →
      bboxSize obj obj.isVisible = ⟨0, 0⟩ ∧
      translateAnchorToCenter obj obj.isVisible = obj.pos) := by
  refine ⟨⟨rfl, rfl, rfl, rfl, rfl, rfl, rfl, rfl, rfl⟩, fun ax ay => rfl, ?_, ?_⟩
  · intro obj isVis
    simp only [translateAnchorToCenter]
    exact V2.ext_mk (by ring) (by ring)
  · intro obj h
    have hv : obj.isVisible = false := by
      simp [GameObj.isVisible, h]
    constructor
    · simp [bboxSize, hv]
    · obtain ⟨s, ⟨px, py⟩, a, ang⟩ := obj
      simp only [translateAnchorToCenter, bboxSize, hv, Bool.false_eq_true, if_false]
      exact V2.ext_mk (by ring) (by ring)

/-- Witness for `c6_anchor_table`: a shapeless object at (3,4) is left in
place by `translateAnchorToCenter`. -/
theorem c6_anchor_table_witness :
    bboxSize ⟨.shapeless, ⟨3, 4⟩, none, 0⟩ (GameObj.isVisible ⟨.shapeless, ⟨3, 4⟩, none, 0⟩)
        = (⟨0, 0⟩ : V2) ∧
    translateAnchorToCenter ⟨.shapeless, ⟨3, 4⟩, none, 0⟩
        (GameObj.isVisible ⟨.shapeless, ⟨3, 4⟩, none, 0⟩) = (⟨3, 4⟩ : V2) :=
  c6_anchor_table.2.2.2 ⟨.shapeless, ⟨3, 4⟩, none, 0⟩ rfl

/-! ## Simulation stepper (`rapierPlugin`'s `onUpdate`, lines 641-659) -/

/-- `PHYSICS_STEP = opts?.physicsStep ?? 5`: the fixed step interval in
milliseconds, default 5 (200 Hz). -/
def PHYSICS_STEP (physicsStep : Option ℚ) : ℚ :=
  physicsStep.getD 5

/-- The catch-up loop `while (acc >= PHYSICS_STEP) { world.step(); acc -=
PHYSICS_STEP; updateCount++; }`.  The source loop only terminates when the
step interval is positive, so the guard carries `0 < step` explicitly;
with a positive step the two conditions agree. -/
def stepLoop (step acc : ℚ) (count : ℕ) : ℚ × ℕ :=
  if h : 0 < step ∧ step ≤ acc then stepLoop step (acc - step) (count + 1)
  else (acc, count)
termination_by (⌊acc / step⌋).toNat
decreasing_by
  obtain ⟨hs, hle⟩ := h
  have h1 : (acc - step) / step = acc / step - 1 := by
    field_simp
  have h2 : (1 : ℚ) ≤ acc / step := (one_le_div hs).mpr hle
  have h3 : (1 : ℤ) ≤ ⌊acc / step⌋ := by
    rw [Int.le_floor]
    exact_mod_cast h2
  rw [h1]
  have h4 : ⌊acc / step - (1 : ℚ)⌋ = ⌊acc / step⌋ - 1 := by
    exact_mod_cast Int.floor_sub_int (acc / step) 1
  rw [h4]
  omega

/-- One frame of the plugin's `onUpdate` callback: accumulate
`dt() * 1000` milliseconds, then run the catch-up loop.  (The gravity
write and the inspector timing reads do not touch the accumulator.) -/
def onUpdateFrame (step : ℚ) (st : ℚ × ℕ) (dt : ℚ) : ℚ × ℕ :=
  stepLoop step (st.1 + dt * 1000) st.2

/-- Feeding a sequence of frame deltas (seconds) to the per-frame update,
starting from accumulator 0 and step count 0. -/
def runFrames (step : ℚ) (dts : List ℚ) : ℚ × ℕ :=
  dts.foldl (onUpdateFrame step) (0, 0)

theorem stepLoop_conserves (step acc : ℚ) (count : ℕ) :
    (stepLoop step acc count).1 + ((stepLoop step acc count).2 : ℚ) * step
      = acc + (count : ℚ) * step := by
  induction acc, count using stepLoop.induct step with
  | case1 acc count h ih =>
    rw [stepLoop, dif_pos h]
    push_cast at ih ⊢
    linarith
  | case2 acc count h =>
    rw [stepLoop, dif_neg h]

theorem stepLoop_lt_step (step acc : ℚ) (count : ℕ) (hs : 0 < step) :
    (stepLoop step acc count).1 < step := by
  induction acc, count using stepLoop.induct step with
  | case1 acc count h ih =>
    rw [stepLoop, dif_pos h]
    exact ih
  | case2 acc count h =>
    rw [stepLoop, dif_neg h]
    simp only [not_and, not_le] at h
    exact h hs

theorem stepLoop_nonneg (step acc : ℚ) (count : ℕ) :
    0 ≤ acc → 0 ≤ (stepLoop step acc count).1 := by
  induction acc, count using stepLoop.induct step with
  | case1 acc count h ih =>
    intro ha
    rw [stepLoop, dif_pos h]
    exact ih (by linarith [h.2])
  | case2 acc count h =>
    intro ha
    rw [stepLoop, dif_neg h]
    exact ha

theorem foldl_frames_spec (step : ℚ) (hs : 0 < step) :
    ∀ (dts : List ℚ), (∀ d ∈ dts, 0 ≤ d) → ∀ st : ℚ × ℕ, 0 ≤ st.1 → st.1 < step →
      0 ≤ (dts.foldl (onUpdateFrame step) st).1 ∧
      (dts.foldl (onUpdateFrame step) st).1 < step ∧
      (dts.foldl (onUpdateFrame step) st).1
          + ((dts.foldl (onUpdateFrame step) st).2 : ℚ) * step
        = st.1 + (st.2 : ℚ) * step + dts.sum * 1000 := by
  intro dts
  induction dts with
  | nil =>
    intro _ st h1 h2
    refine ⟨h1, h2, ?_⟩
    simp
  | cons d ds ih =>
    intro hd st h1 h2
    have hd0 : 0 ≤ d := hd d (List.mem_cons_self d ds)
    have hacc : 0 ≤ st.1 + d * 1000 := by linarith
    have hfold : (d :: ds).foldl (onUpdateFrame step) st
        = ds.foldl (onUpdateFrame step) (onUpdateFrame step st d) := rfl
    rw [hfold]
    have hn : 0 ≤ (onUpdateFrame step st d).1 := stepLoop_nonneg _ _ _ hacc
    have hl : (onUpdateFrame step st d).1 < step := stepLoop_lt_step _ _ _ hs
    have hc : (onUpdateFrame step st d).1 + ((onUpdateFrame step st d).2 : ℚ) * step
        = (st.1 + d * 1000) + (st.2 : ℚ) * step := stepLoop_conserves _ _ _
    obtain ⟨r1, r2, r3⟩ := ih (fun x hx => hd x (List.mem_cons_of_mem _ hx))
      (onUpdateFrame step st d) hn hl
    refine ⟨r1, r2, ?_⟩
    rw [r3, hc, List.sum_cons]
    ring

/-- Claim C3.  For every non-negative sequence of frame deltas and a
positive step interval, at every frame boundary (every prefix of the delta
sequence) the step counter and accumulator satisfy
`count * step ≤ elapsed < count * step + step`, `elapsed = count * step +
acc` (no time lost) and `0 ≤ acc < step`, where `elapsed` is the total
frame time in milliseconds. -/
theorem c3_accumulator (physicsStep : Option ℚ) (dts : List ℚ) (n : ℕ)
    (hs : 0 < PHYSICS_STEP physicsStep) (hd : ∀ d ∈ dts, 0 ≤ d) :
    ((runFrames (PHYSICS_STEP physicsStep) (dts.take n)).2 : ℚ) * PHYSICS_STEP physicsStep
        ≤ (dts.take n).sum * 1000 ∧
    (dts.take n).sum * 1000
        < ((runFrames (PHYSICS_STEP physicsStep) (dts.take n)).2 : ℚ) * PHYSICS_STEP physicsStep
          + PHYSICS_STEP physicsStep ∧
    0 ≤ (runFrames (PHYSICS_STEP physicsStep) (dts.take n)).1 ∧
    (runFrames (PHYSICS_STEP physicsStep) (dts.take n)).1 < PHYSICS_STEP physicsStep ∧
    (dts.take n).sum * 1000
      = ((runFrames (PHYSICS_STEP physicsStep) (dts.take n)).2 : ℚ) * PHYSICS_STEP physicsStep
        + (runFrames (PHYSICS_STEP physicsStep) (dts.take n)).1 := by
  have hd' : ∀ d ∈ dts.take n, 0 ≤ d := fun d hx => hd d (List.mem_of_mem_take hx)
  obtain ⟨r1, r2, r3⟩ := foldl_frames_spec (PHYSICS_STEP physicsStep) hs (dts.take n) hd'
    (0, 0) le_rfl hs
  simp only [runFrames]
  simp only [Prod.fst, Prod.snd, Nat.cast_zero, zero_mul, zero_add] at r3
  exact ⟨by linarith, by linarith, r1, r2, by linarith⟩

/-- Witness for `c3_accumulator`: two frames of 7 ms and 6 ms at the
default 5 ms step.  Also checks by evaluation that the loop state after
those frames is accumulator 3 ms, 2 steps. -/
theorem c3_accumulator_witness :
    runFrames (PHYSICS_STEP none) [7/1000, 6/1000] = (3, 2) ∧
    (((runFrames (PHYSICS_STEP none) ([(7:ℚ)/1000, 6/1000].take 2)).2 : ℚ)
          * PHYSICS_STEP none
        ≤ ([(7:ℚ)/1000, 6/1000].take 2).sum * 1000 ∧
      ([(7:ℚ)/1000, 6/1000].take 2).sum * 1000
        < ((runFrames (PHYSICS_STEP none) ([(7:ℚ)/1000, 6/1000].take 2)).2 : ℚ)
            * PHYSICS_STEP none + PHYSICS_STEP none) := by
  constructor
  · have e1 : onUpdateFrame (PHYSICS_STEP none) (0, 0) (7/1000) = (2, 1) := by
      rw [onUpdateFrame]
      rw [stepLoop, dif_pos (by norm_num [PHYSICS_STEP])]
      rw [stepLoop, dif_neg (by norm_num [PHYSICS_STEP])]
      norm_num [PHYSICS_STEP]
    have e2 : onUpdateFrame (PHYSICS_STEP none) (2, 1) (6/1000) = (3, 2) := by
      rw [onUpdateFrame]
      rw [stepLoop, dif_pos (by norm_num [PHYSICS_STEP])]
      rw [stepLoop, dif_neg (by norm_num [PHYSICS_STEP])]
      norm_num [PHYSICS_STEP]
    show List.foldl _ _ _ = _
    rw [List.foldl_cons, List.foldl_cons, List.foldl_nil, e1, e2]
  · have h := c3_accumulator none [7/1000, 6/1000] 2 (by norm_num [PHYSICS_STEP])
      (by intro d hx; fin_cases hx <;> norm_num)
    exact ⟨h.1, h.2.1⟩

/-! ## Simulation world and body adapter (`rapierBody`, lines 239-468) -/

/-- `RigidBodyDesc.fixed() / kinematicVelocityBased() / dynamic()`. -/
inductive RigidBodyKind where
  | fixed
  | kinematicVelocityBased
  | dynamic
deriving DecidableEq, Repr

/-- The rapier rigid body state the plugin touches.  Impulse/force
magnitudes are modelled additively (the engine scales an impulse by the
inverse mass; no claim here depends on the scale factor). -/
structure RigidBody where
  id : ℕ
  kind : RigidBodyKind
  translation : V2
  rotation : ℚ
  linvel : V2
  angvel : ℚ
  gravityScale : ℚ
  force : V2
  lockedTranslations : Bool
  lockedRotations : Bool
deriving DecidableEq, Repr

/-- The collider shapes the plugin creates: `ColliderDesc.cuboid`,
`ColliderDesc.ball`, `ColliderDesc.convexHull`. -/
inductive ColliderShape where
  | cuboid (hx hy : ℚ)
  | ball (radius : ℚ)
  | convexHullShape (pts : List V2)
deriving DecidableEq, Repr

/-- A rapier collider: shape, owning body, mass and restitution. -/
structure Collider where
  id : ℕ
  parent : ℕ
  shape : ColliderShape
  mass : ℚ
  restitution : ℚ
deriving DecidableEq, Repr

/-- The simulation world: rigid bodies and colliders, with a fresh-handle
counter. -/
structure World where
  bodies : List RigidBody
  colliders : List Collider
  nextId : ℕ
deriving DecidableEq, Repr

/-- `world.createRigidBody(desc)`: append a fresh body of the given kind
with rapier's default attributes, returning its handle. -/
def World.createRigidBody (w : World) (kind : RigidBodyKind) : World × ℕ :=
  (⟨w.bodies ++ [⟨w.nextId, kind, ⟨0, 0⟩, 0, ⟨0, 0⟩, 0, 1, ⟨0, 0⟩, false, false⟩],
    w.colliders, w.nextId + 1⟩, w.nextId)

/-- Apply an update to the body with the given handle. -/
def World.updateBody (w : World) (bid : ℕ) (f : RigidBody → RigidBody) : World :=
  { w with bodies := w.bodies.map fun b => if b.id = bid then f b else b }

/-- `world.createCollider(desc, rbody)`: append a fresh collider attached
to the given body (rapier's default mass 1, restitution 0). -/
def World.createCollider (w : World) (shape : ColliderShape) (parent : ℕ) : World × ℕ :=
  (⟨w.bodies, w.colliders ++ [⟨w.nextId, parent, shape, 1, 0⟩], w.nextId + 1⟩, w.nextId)

/-- Apply an update to the collider with the given handle. -/
def World.updateCollider (w : World) (cid : ℕ) (f : Collider → Collider) : World :=
  { w with colliders := w.colliders.map fun c => if c.id = cid then f c else c }

/-- Apply an update to the colliders attached to a body (the plugin
attaches at most one collider per body, addressed as `rbody.collider(0)`). -/
def World.updateCollidersOf (w : World) (bid : ℕ) (f : Collider → Collider) : World :=
  { w with colliders := w.colliders.map fun c => if c.parent = bid then f c else c }

/-- `world.removeCollider(collider, wakeUp)`. -/
def World.removeCollider (w : World) (cid : ℕ) : World :=
  { w with colliders := w.colliders.filter fun c => c.id ≠ cid }

/-- `world.removeRigidBody(rbody)`: removes the body and any colliders
still attached to it. -/
def World.removeRigidBody (w : World) (bid : ℕ) : World :=
  ⟨w.bodies.filter (fun b => b.id ≠ bid),
   w.colliders.filter (fun c => c.parent ≠ bid), w.nextId⟩

/-- The body handles present in a world. -/
def World.bodyIds (w : World) : List ℕ :=
  w.bodies.map (·.id)

/-- The collider handles present in a world. -/
def World.colliderIds (w : World) : List ℕ :=
  w.colliders.map (·.id)

/-- Handle, owner and shape of every collider: the data captured at
creation time that no later operation may re-derive. -/
def World.colliderShapes (w : World) : List (ℕ × ℕ × ColliderShape) :=
  w.colliders.map fun c => (c.id, c.parent, c.shape)

def RigidBody.setTranslation (b : RigidBody) (v : V2) : RigidBody :=
  { b with translation := v }

def RigidBody.setRotation (b : RigidBody) (angle : ℚ) : RigidBody :=
  { b with rotation := angle }

def RigidBody.setLinvel (b : RigidBody) (v : V2) : RigidBody :=
  { b with linvel := v }

def RigidBody.setGravityScale (b : RigidBody) (g : ℚ) : RigidBody :=
  { b with gravityScale := g }

def RigidBody.lockTranslations (b : RigidBody) (locked : Bool) : RigidBody :=
  { b with lockedTranslations := locked }

def RigidBody.lockRotations (b : RigidBody) (locked : Bool) : RigidBody :=
  { b with lockedRotations := locked }

def RigidBody.addForce (b : RigidBody) (v : V2) : RigidBody :=
  { b with force := ⟨b.force.x + v.x, b.force.y + v.y⟩ }

def RigidBody.applyImpulse (b : RigidBody) (v : V2) : RigidBody :=
  { b with linvel := ⟨b.linvel.x + v.x, b.linvel.y + v.y⟩ }

def RigidBody.applyTorqueImpulse (b : RigidBody) (i : ℚ) : RigidBody :=
  { b with angvel := b.angvel + i }

def Collider.setMass (c : Collider) (m : ℚ) : Collider :=
  { c with mass := m }

def Collider.setRestitution (c : Collider) (r : ℚ) : Collider :=
  { c with restitution := r }

/-- `RapierBodyOptions` of the source. -/
structure RapierBodyOptions where
  isStatic : Bool := false
  kinematic : Bool := false
  mass : Option ℚ := none
  jumpPower : Option ℚ := none
  bounciness : Option ℚ := none
  gravityScale : Option ℚ := none
deriving DecidableEq, Repr

/-- The adapter's closure state: `let rbody = null; let collider = null`
in `rapierBody`, holding handles once lazily created. -/
structure BodyState where
  rbody : Option ℕ
  collider : Option ℕ
deriving DecidableEq, Repr

/-- Constructing the body component (`rapierBody(opts)` returning the comp
record): initializes the closure state and performs no world mutation. -/
def rapierBody (opts : RapierBodyOptions) (w : World) : BodyState × World :=
  (⟨none, none⟩, w)

/-- `ensureBody` (lines 244-287).  If the body handle exists, return
immediately.  Otherwise create the rigid body (kind from the options),
set rotation, gravity scale and the anchor-translated position, then
create the shape-dependent collider and set its mass to `opts?.mass ?? 1`.
A polygon whose `ColliderDesc.convexHull` (modelled by the external
`hull` parameter) returns null aborts with the thrown error.  The
`obj.use(k.rotate(0))` side effect is absorbed by the model's `GameObj`
always carrying an angle. -/
def ensureBody (opts : RapierBodyOptions) (hull : List V2 → Option (List V2))
    (obj : GameObj) (st : BodyState) (w : World) :
    BodyState × World × Except String Unit :=
  match st.rbody with
  | some _ => (st, w, .ok ())
  | none =>
    let isVis := obj.isVisible
    let kind : RigidBodyKind :=
      if opts.isStatic then .fixed
      else if opts.kinematic then .kinematicVelocityBased
      else .dynamic
    let created := w.createRigidBody kind
    let bid := created.2
    let w2 := created.1.updateBody bid fun b =>
      ((b.setRotation obj.angle).setGravityScale
        (opts.gravityScale.getD 1)).setTranslation (translateAnchorToCenter obj isVis)
    let st1 : BodyState := ⟨some bid, st.collider⟩
    if isVis then
      match obj.shape with
      | .polygon pts =>
        match hull pts with
        | none => (st1, w2, .error "polygon is not convex")
        | some hpts =>
          let c := w2.createCollider (.convexHullShape hpts) bid
          (⟨some bid, some c.2⟩,
           c.1.updateCollider c.2 (fun k => k.setMass (opts.mass.getD 1)), .ok ())
      | .rect width height =>
          let c := w2.createCollider (.cuboid (width / 2) (height / 2)) bid
          (⟨some bid, some c.2⟩,
           c.1.updateCollider c.2 (fun k => k.setMass (opts.mass.getD 1)), .ok ())
      | .circle radius =>
          let c := w2.createCollider (.ball radius) bid
          (⟨some bid, some c.2⟩,
           c.1.updateCollider c.2 (fun k => k.setMass (opts.mass.getD 1)), .ok ())
      | .shapeless => (st1, w2, .error "unreachable")
    else (st1, w2, .ok ())

/-- `destroy()` (lines 454-457): remove the collider if present, then the
rigid body if present. -/
def destroy (st : BodyState) (w : World) : World :=
  let w1 := match st.collider with
    | some cid => w.removeCollider cid
    | none => w
  match st.rbody with
  | some bid => w1.removeRigidBody bid
  | none => w1

/-- `translateX(x)` (lines 427-431), body-level effect:
`rbody.setTranslation(new R.Vector2(x, rbody.translation().y))`. -/
def translateX (b : RigidBody) (x : ℚ) : RigidBody :=
  b.setTranslation ⟨x, b.translation.y⟩

/-- `translateY(y)` (lines 433-437), body-level effect:
`rbody.setTranslation(new R.Vector2(rbody.translation().x, y))`. -/
def translateY (b : RigidBody) (y : ℚ) : RigidBody :=
  b.setTranslation ⟨b.translation.x, y⟩

/-- A vector component name, standing for the property key `p` of the
velocity proxy's set handler. -/
inductive VecComp where
  | x
  | y
deriving DecidableEq, Repr

/-- The `velocity` getter (lines 326-345) returns the body's current
linear velocity. -/
def velocityGet (b : RigidBody) : V2 :=
  b.linvel

/-- Component assignment through the live velocity view: the proxy's set
handler reads `curr = body.linvel()`, overwrites the named component, and
calls `body.setLinvel(curr)`. -/
def velocityViewSet (b : RigidBody) (p : VecComp) (v : ℚ) : RigidBody :=
  let curr := b.linvel
  let next : V2 := match p with
    | .x => ⟨v, curr.y⟩
    | .y => ⟨curr.x, v⟩
  b.setLinvel next

/-- The `velocity` setter (lines 347-351): `rbody.setLinvel(vel)`. -/
def velocitySet (b : RigidBody) (vel : V2) : RigidBody :=
  b.setLinvel vel

/-- A pointwise update keyed on a fresh handle leaves old entries alone
and rewrites only the appended entry. -/
theorem map_ite_append {α : Type} (q : α → Prop) [DecidablePred q] (l : List α) (nb : α)
    (f : α → α) (h : ∀ b ∈ l, ¬q b) (hq : q nb) :
    (l ++ [nb]).map (fun b => if q b then f b else b) = l ++ [f nb] := by
  rw [List.map_append]
  have h1 : l.map (fun b => if q b then f b else b) = l := by
    calc l.map (fun b => if q b then f b else b)
        = l.map id := List.map_congr_left (fun b hb => if_neg (h b hb))
      _ = l := List.map_id l
  rw [h1]
  simp [if_pos hq]

/-- Claim C10.  `translateX x` overwrites only the X component of the
body's translation, keeping Y at the value read at call time, and
`translateY y` symmetrically overwrites only Y. -/
theorem c10_translate_axes (b : RigidBody) (x y : ℚ) :
    (translateX b x).translation.x = x ∧
    (translateX b x).translation.y = b.translation.y ∧
    (translateY b y).translation.y = y ∧
    (translateY b y).translation.x = b.translation.x :=
  ⟨rfl, rfl, rfl, rfl⟩

/-- Claim C7.  The velocity property is a live view: assigning only the Y
component through the view sets the body's linear velocity Y to the
assigned value and leaves X at its prior body-reported value; assigning
the whole property sets the full linear velocity vector. -/
theorem c7_velocity_live_view (b : RigidBody) (v : ℚ) (vel : V2) :
    velocityGet b = b.linvel ∧
    (velocityViewSet b .y v).linvel.y = v ∧
    (velocityViewSet b .y v).linvel.x = (velocityGet b).x ∧
    (velocityViewSet b .x v).linvel.x = v ∧
    (velocityViewSet b .x v).linvel.y = (velocityGet b).y ∧
    (velocitySet b vel).linvel = vel :=
  ⟨rfl, rfl, rfl, rfl, rfl, rfl⟩

/-- Claim C8.  Constructing a body adapter mutates nothing and holds no
handles, so destroying a never-realized adapter is a no-op on the world;
when handles exist, `destroy` removes the collider (if any) and then the
rigid body, after which neither handle is present in the world. -/
theorem c8_lazy_creation_destroy :
    (∀ (opts : RapierBodyOptions) (w : World),
      (rapierBody opts w).2 = w ∧ (rapierBody opts w).1 = ⟨none, none⟩ ∧
      destroy (rapierBody opts w).1 w = w) ∧
    (∀ (w : World) (st : BodyState), st.rbody = none → st.collider = none →
      destroy st w = w) ∧
    (∀ (w : World) (st : BodyState) (bid cid : ℕ),
      st.rbody = some bid → st.collider = some cid →
      destroy st w = (w.removeCollider cid).removeRigidBody bid ∧
      bid ∉ (destroy st w).bodyIds ∧ cid ∉ (destroy st w).colliderIds) ∧
    (∀ (w : World) (st : BodyState) (bid : ℕ),
      st.rbody = some bid → st.collider = none →
      destroy st w = w.removeRigidBody bid) := by
  refine ⟨fun opts w => ⟨rfl, rfl, rfl⟩, ?_, ?_, ?_⟩
  · rintro w ⟨rb, col⟩ h1 h2
    cases h1
    cases h2
    rfl
  · rintro w ⟨rb, col⟩ bid cid h1 h2
    cases h1
    cases h2
    refine ⟨rfl, ?_, ?_⟩
    · simp only [destroy, World.bodyIds, World.removeRigidBody, World.removeCollider,
        List.mem_map, List.mem_filter, not_exists, not_and]
      intro b hb
      simp only [decide_eq_true_eq] at hb
      exact hb.2
    · simp only [destroy, World.colliderIds, World.removeRigidBody, World.removeCollider,
        List.mem_map, List.mem_filter, not_exists, not_and]
      intro c hc
      simp only [List.mem_filter, decide_eq_true_eq] at hc
      exact hc.1.2
  · rintro w ⟨rb, col⟩ bid h1 h2
    cases h1
    cases h2
    rfl

/-- Witness for `c8_lazy_creation_destroy`: destroying a realized adapter
with body handle 0 and collider handle 1 removes both handles from a
concrete two-entry world. -/
theorem c8_lazy_creation_destroy_witness :
    destroy ⟨some 0, some 1⟩
        ⟨[⟨0, .dynamic, ⟨0, 0⟩, 0, ⟨0, 0⟩, 0, 1, ⟨0, 0⟩, false, false⟩],
         [⟨1, 0, .ball 5, 1, 0⟩], 2⟩
      = (World.removeCollider
          ⟨[⟨0, .dynamic, ⟨0, 0⟩, 0, ⟨0, 0⟩, 0, 1, ⟨0, 0⟩, false, false⟩],
           [⟨1, 0, .ball 5, 1, 0⟩], 2⟩ 1).removeRigidBody 0 ∧
    (0 : ℕ) ∉ (destroy ⟨some 0, some 1⟩
        ⟨[⟨0, .dynamic, ⟨0, 0⟩, 0, ⟨0, 0⟩, 0, 1, ⟨0, 0⟩, false, false⟩],
         [⟨1, 0, .ball 5, 1, 0⟩], 2⟩).bodyIds ∧
    (1 : ℕ) ∉ (destroy ⟨some 0, some 1⟩
        ⟨[⟨0, .dynamic, ⟨0, 0⟩, 0, ⟨0, 0⟩, 0, 1, ⟨0, 0⟩, false, false⟩],
         [⟨1, 0, .ball 5, 1, 0⟩], 2⟩).colliderIds :=
  c8_lazy_creation_destroy.2.2.1
    ⟨[⟨0, .dynamic, ⟨0, 0⟩, 0, ⟨0, 0⟩, 0, 1, ⟨0, 0⟩, false, false⟩],
     [⟨1, 0, .ball 5, 1, 0⟩], 2⟩ ⟨some 0, some 1⟩ 0 1 rfl rfl

/-- Creating a collider and immediately setting its mass appends exactly
one collider with that mass, provided the world's handles are fresh. -/
theorem updateCollider_createCollider (w : World) (shape : ColliderShape) (parent : ℕ)
    (m : ℚ) (hwc : ∀ c ∈ w.colliders, c.id < w.nextId) :
    ((w.createCollider shape parent).1.updateCollider (w.createCollider shape parent).2
        fun k => k.setMass m).colliders
      = w.colliders ++ [⟨w.nextId, parent, shape, m, 0⟩] := by
  simp only [World.createCollider, World.updateCollider]
  exact map_ite_append (fun c => c.id = w.nextId) w.colliders
    ⟨w.nextId, parent, shape, 1, 0⟩ (fun k => k.setMass m)
    (fun c hc => Nat.ne_of_lt (hwc c hc)) rfl

/-- Claim C5.  At lazy creation: a rectangle yields a box collider with
half-extents (w/2, h/2); a circle yields a ball of its radius; a polygon
whose convex hull construction fails aborts with the thrown error; a
shapeless object gets a rigid body and no collider; and a created
collider's mass is the configured mass or 1. -/
theorem c5_collider_shape_mapping (opts : RapierBodyOptions)
    (hull : List V2 → Option (List V2)) (obj : GameObj) (st : BodyState) (w : World)
    (h : st.rbody = none)
    (hwc : ∀ c ∈ w.colliders, c.id < w.nextId)
    (hwb : ∀ b ∈ w.bodies, b.id < w.nextId) :
    (∀ width height, obj.shape = .rect width height →
      (ensureBody opts hull obj st w).2.1.colliders
          = w.colliders ++ [⟨w.nextId + 1, w.nextId,
              .cuboid (width / 2) (height / 2), opts.mass.getD 1, 0⟩] ∧
      (ensureBody opts hull obj st w).2.2 = .ok ()) ∧
    (∀ radius, obj.shape = .circle radius →
      (ensureBody opts hull obj st w).2.1.colliders
          = w.colliders ++ [⟨w.nextId + 1, w.nextId, .ball radius, opts.mass.getD 1, 0⟩] ∧
      (ensureBody opts hull obj st w).2.2 = .ok ()) ∧
    (∀ pts, obj.shape = .polygon pts → hull pts = none →
      (ensureBody opts hull obj st w).2.2 = .error "polygon is not convex") ∧
    (obj.shape = .shapeless →
      (∃ nb : RigidBody, (ensureBody opts hull obj st w).2.1.bodies = w.bodies ++ [nb]) ∧
      (ensureBody opts hull obj st w).2.1.colliders = w.colliders ∧
      (ensureBody opts hull obj st w).2.2 = .ok ()) := by
  obtain ⟨rb, col⟩ := st
  cases h
  obtain ⟨s, p, a, ang⟩ := obj
  refine ⟨?_, ?_, ?_, ?_⟩
  · rintro width height hs
    cases hs
    refine ⟨?_, rfl⟩
    exact updateCollider_createCollider
      ((w.createRigidBody (if opts.isStatic then RigidBodyKind.fixed
          else if opts.kinematic then RigidBodyKind.kinematicVelocityBased
          else RigidBodyKind.dynamic)).1.updateBody w.nextId fun b =>
        ((b.setRotation ang).setGravityScale (opts.gravityScale.getD 1)).setTranslation
          (translateAnchorToCenter ⟨.rect width height, p, a, ang⟩ true))
      (.cuboid (width / 2) (height / 2)) w.nextId (opts.mass.getD 1)
      (fun c hc => Nat.lt_succ_of_lt (hwc c hc))
  · rintro radius hs
    cases hs
    refine ⟨?_, rfl⟩
    exact updateCollider_createCollider
      ((w.createRigidBody (if opts.isStatic then RigidBodyKind.fixed
          else if opts.kinematic then RigidBodyKind.kinematicVelocityBased
          else RigidBodyKind.dynamic)).1.updateBody w.nextId fun b =>
        ((b.setRotation ang).setGravityScale (opts.gravityScale.getD 1)).setTranslation
          (translateAnchorToCenter ⟨.circle radius, p, a, ang⟩ true))
      (.ball radius) w.nextId (opts.mass.getD 1)
      (fun c hc => Nat.lt_succ_of_lt (hwc c hc))
  · rintro pts hs hpn
    cases hs
    simp [ensureBody, GameObj.isVisible, hpn]
  · rintro hs
    cases hs
    refine ⟨?_, rfl, rfl⟩
    have hb2 := map_ite_append (fun b => b.id = w.nextId) w.bodies
      ⟨w.nextId, (if opts.isStatic then RigidBodyKind.fixed
          else if opts.kinematic then RigidBodyKind.kinematicVelocityBased
          else RigidBodyKind.dynamic), ⟨0, 0⟩, 0, ⟨0, 0⟩, 0, 1, ⟨0, 0⟩, false, false⟩
      (fun b => ((b.setRotation ang).setGravityScale
        (opts.gravityScale.getD 1)).setTranslation
          (translateAnchorToCenter ⟨.shapeless, p, a, ang⟩ false))
      (fun b hb => Nat.ne_of_lt (hwb b hb)) rfl
    exact ⟨_, hb2⟩

/-- Witness for `c5_collider_shape_mapping`: a 4×6 rect at the origin in
the empty world yields exactly one box collider with half-extents (2,3)
and mass 1. -/
theorem c5_collider_shape_mapping_witness :
    (ensureBody {} (fun _ => none) ⟨.rect 4 6, ⟨0, 0⟩, none, 0⟩
        ⟨none, none⟩ ⟨[], [], 0⟩).2.1.colliders
      = [⟨1, 0, .cuboid (4 / 2) (6 / 2), (1 : ℚ), 0⟩] ∧
    (ensureBody {} (fun _ => none) ⟨.rect 4 6, ⟨0, 0⟩, none, 0⟩
        ⟨none, none⟩ ⟨[], [], 0⟩).2.2 = .ok () :=
  (c5_collider_shape_mapping {} (fun _ => none) ⟨.rect 4 6, ⟨0, 0⟩, none, 0⟩
      ⟨none, none⟩ ⟨[], [], 0⟩ rfl (by simp) (by simp)).1 4 6 rfl

/-! ## Public operations of the body component (for the at-most-once
creation invariant).  Every accessor/mutator of the returned component
record first runs `ensureBody` and then acts on the realized body or its
collider; `update` additionally writes position/rotation back onto the
visual object (a host-side effect outside the world), and read-only
accessors (`getRigidBody`, `mass`, `velocity` get, `isGrounded`,
`inspect`) mutate nothing. -/

inductive BodyOp where
  | translateOp (v : V2)
  | translateXOp (x : ℚ)
  | translateYOp (y : ℚ)
  | setVelocityOp (v : V2)
  | setVelocityCompOp (p : VecComp) (v : ℚ)
  | jumpOp (power : Option ℚ)
  | addForceOp (v : V2)
  | applyImpulseOp (v : V2)
  | applyTorqueImpulseOp (i : ℚ)
  | lockPositionOp (locked : Option Bool)
  | lockRotationOp (locked : Option Bool)
  | setGravityScaleOp (g : ℚ)
  | setMassOp (m : ℚ)
  | setBouncinessOp (r : ℚ)
  | updateOp
  | queryOp
deriving DecidableEq, Repr

/-- The body-level state change of each operation (identity for the
collider-targeted setters and the read-only ones). -/
def bodyOpEffect (opts : RapierBodyOptions) (op : BodyOp) : RigidBody → RigidBody :=
  match op with
  | .translateOp v => fun b => b.setTranslation v
  | .translateXOp x => fun b => translateX b x
  | .translateYOp y => fun b => translateY b y
  | .setVelocityOp v => fun b => velocitySet b v
  | .setVelocityCompOp p v => fun b => velocityViewSet b p v
  | .jumpOp power => fun b => b.applyImpulse ⟨0, -(power.getD (opts.jumpPower.getD 100))⟩
  | .addForceOp v => fun b => b.addForce v
  | .applyImpulseOp v => fun b => b.applyImpulse v
  | .applyTorqueImpulseOp i => fun b => b.applyTorqueImpulse i
  | .lockPositionOp locked => fun b => b.lockTranslations (locked.getD true)
  | .lockRotationOp locked => fun b => b.lockRotations (locked.getD true)
  | .setGravityScaleOp g => fun b => b.setGravityScale g
  | _ => id

/-- The collider-level state change of each operation (`mass` and
`bounciness` setters target `rbody.collider(0)`; everything else leaves
colliders alone). -/
def colliderOpEffect (op : BodyOp) : Collider → Collider :=
  match op with
  | .setMassOp m => fun c => c.setMass m
  | .setBouncinessOp r => fun c => c.setRestitution r
  | _ => id

/-- Run one public operation of the component: `ensureBody`, then the
operation's effect on the realized body and its collider. -/
def runOp (opts : RapierBodyOptions) (hull : List V2 → Option (List V2)) (obj : GameObj)
    (op : BodyOp) (st : BodyState) (w : World) : BodyState × World × Except String Unit :=
  let r := ensureBody opts hull obj st w
  match r.2.2 with
  | .error e => (r.1, r.2.1, .error e)
  | .ok () =>
    match r.1.rbody with
    | none => (r.1, r.2.1, .ok ())
    | some bid =>
      (r.1,
       ((r.2.1).updateBody bid (bodyOpEffect opts op)).updateCollidersOf bid
         (colliderOpEffect op),
       .ok ())

theorem bodyOpEffect_id (opts : RapierBodyOptions) (op : BodyOp) (b : RigidBody) :
    (bodyOpEffect opts op b).id = b.id := by
  cases op <;> rfl

theorem colliderOpEffect_keeps (op : BodyOp) (c : Collider) :
    (colliderOpEffect op c).id = c.id ∧ (colliderOpEffect op c).parent = c.parent ∧
    (colliderOpEffect op c).shape = c.shape := by
  cases op <;> exact ⟨rfl, rfl, rfl⟩

theorem updateBody_bodyIds (w : World) (bid : ℕ) (f : RigidBody → RigidBody)
    (hf : ∀ b, (f b).id = b.id) :
    (w.updateBody bid f).bodyIds = w.bodyIds := by
  simp only [World.updateBody, World.bodyIds, List.map_map]
  refine List.map_congr_left fun b _ => ?_
  by_cases hb : b.id = bid <;> simp [Function.comp, hb, hf]

theorem updateCollidersOf_shapes (w : World) (bid : ℕ) (g : Collider → Collider)
    (hg : ∀ c, (g c).id = c.id ∧ (g c).parent = c.parent ∧ (g c).shape = c.shape) :
    (w.updateCollidersOf bid g).colliderShapes = w.colliderShapes := by
  simp only [World.updateCollidersOf, World.colliderShapes, List.map_map]
  refine List.map_congr_left fun c _ => ?_
  by_cases hc : c.parent = bid <;>
    simp [Function.comp, hc, (hg c).1, (hg c).2.1, (hg c).2.2]

/-- Claim C9.  Once the adapter holds a body handle, `ensureBody` is a
no-op on state and world regardless of the visual object passed to it
(so nothing is re-created and nothing is re-derived from later shape
mutations), and every public operation keeps the same handle, the same
set of bodies, and the handle/owner/shape data of every collider. -/
theorem c9_create_once (opts : RapierBodyOptions) (hull : List V2 → Option (List V2))
    (obj obj2 : GameObj) (op : BodyOp) (st : BodyState) (w : World) (bid : ℕ)
    (h : st.rbody = some bid) :
    ensureBody opts hull obj st w = (st, w, .ok ()) ∧
    (runOp opts hull obj2 op st w).1 = st ∧
    (runOp opts hull obj2 op st w).2.1.bodyIds = w.bodyIds ∧
    (runOp opts hull obj2 op st w).2.1.colliderShapes = w.colliderShapes := by
  obtain ⟨rb, col⟩ := st
  cases h
  refine ⟨rfl, rfl, ?_, ?_⟩
  · exact updateBody_bodyIds w bid (bodyOpEffect opts op) (bodyOpEffect_id opts op)
  · have h2 := updateCollidersOf_shapes (w.updateBody bid (bodyOpEffect opts op)) bid
      (colliderOpEffect op) (colliderOpEffect_keeps op)
    exact h2

/-- Witness for `c9_create_once`: an adapter holding body 0 and collider 1
in a concrete world, later presented with a circle-shaped object (a shape
mutation after creation), is untouched by a `translateX` call. -/
theorem c9_create_once_witness :
    ensureBody {} (fun _ => none) ⟨.rect 4 6, ⟨0, 0⟩, none, 0⟩ ⟨some 0, some 1⟩
        ⟨[⟨0, .dynamic, ⟨0, 0⟩, 0, ⟨0, 0⟩, 0, 1, ⟨0, 0⟩, false, false⟩],
         [⟨1, 0, .cuboid 2 3, 1, 0⟩], 2⟩
      = (⟨some 0, some 1⟩,
         ⟨[⟨0, .dynamic, ⟨0, 0⟩, 0, ⟨0, 0⟩, 0, 1, ⟨0, 0⟩, false, false⟩],
          [⟨1, 0, .cuboid 2 3, 1, 0⟩], 2⟩, .ok ()) ∧
    (runOp {} (fun _ => none) ⟨.circle 9, ⟨0, 0⟩, none, 0⟩ (.translateXOp 3)
        ⟨some 0, some 1⟩
        ⟨[⟨0, .dynamic, ⟨0, 0⟩, 0, ⟨0, 0⟩, 0, 1, ⟨0, 0⟩, false, false⟩],
         [⟨1, 0, .cuboid 2 3, 1, 0⟩], 2⟩).1 = ⟨some 0, some 1⟩ ∧
    (runOp {} (fun _ => none) ⟨.circle 9, ⟨0, 0⟩, none, 0⟩ (.translateXOp 3)
        ⟨some 0, some 1⟩
        ⟨[⟨0, .dynamic, ⟨0, 0⟩, 0, ⟨0, 0⟩, 0, 1, ⟨0, 0⟩, false, false⟩],
         [⟨1, 0, .cuboid 2 3, 1, 0⟩], 2⟩).2.1.bodyIds
      = World.bodyIds ⟨[⟨0, .dynamic, ⟨0, 0⟩, 0, ⟨0, 0⟩, 0, 1, ⟨0, 0⟩, false, false⟩],
          [⟨1, 0, .cuboid 2 3, 1, 0⟩], 2⟩ ∧
    (runOp {} (fun _ => none) ⟨.circle 9, ⟨0, 0⟩, none, 0⟩ (.translateXOp 3)
        ⟨some 0, some 1⟩
        ⟨[⟨0, .dynamic, ⟨0, 0⟩, 0, ⟨0, 0⟩, 0, 1, ⟨0, 0⟩, false, false⟩],
         [⟨1, 0, .cuboid 2 3, 1, 0⟩], 2⟩).2.1.colliderShapes
      = World.colliderShapes ⟨[⟨0, .dynamic, ⟨0, 0⟩, 0, ⟨0, 0⟩, 0, 1, ⟨0, 0⟩, false, false⟩],
          [⟨1, 0, .cuboid 2 3, 1, 0⟩], 2⟩ :=
  c9_create_once {} (fun _ => none) ⟨.rect 4 6, ⟨0, 0⟩, none, 0⟩
    ⟨.circle 9, ⟨0, 0⟩, none, 0⟩ (.translateXOp 3) ⟨some 0, some 1⟩
    ⟨[⟨0, .dynamic, ⟨0, 0⟩, 0, ⟨0, 0⟩, 0, 1, ⟨0, 0⟩, false, false⟩],
     [⟨1, 0, .cuboid 2 3, 1, 0⟩], 2⟩ 0 rfl

/-! ## Ray casting and `isGrounded` (lines 361-379) -/

/-- A ray: `new R.Ray(origin, dir)`. -/
structure Ray where
  origin : V2
  dir : V2
deriving DecidableEq, Repr

/-- An axis-aligned box collider as seen by the ray-cast query, tagged
with its owning body handle (for the self-exclusion filter). -/
structure RayCollider where
  owner : ℕ
  xmin : ℚ
  xmax : ℚ
  ymin : ℚ
  ymax : ℚ
deriving DecidableEq, Repr

/-- Intersect the parameter interval `I` with the times `t` at which
`p + t * d` lies within `[lo, hi]` on one axis (the slab method). -/
def clampAxis (p d lo hi : ℚ) (I : ℚ × ℚ) : Option (ℚ × ℚ) :=
  if d = 0 then
    if lo ≤ p ∧ p ≤ hi then some I else none
  else
    let t1 := (lo - p) / d
    let t2 := (hi - p) / d
    let tlo := min t1 t2
    let thi := max t1 t2
    let l := max I.1 tlo
    let h := min I.2 thi
    if l ≤ h then some (l, h) else none

/-- Whether the ray segment `origin + t * dir`, `t ∈ [0, maxToi]`, meets
the box (a solid hit: a ray starting inside the box hits at `t = 0`). -/
def segmentHitsBox (ray : Ray) (maxToi : ℚ) (c : RayCollider) : Bool :=
  (match clampAxis ray.origin.x ray.dir.x c.xmin c.xmax (0, maxToi) with
   | none => none
   | some I => clampAxis ray.origin.y ray.dir.y c.ymin c.ymax I).isSome

/-- `world.castRay(ray, maxToi, solid, …, filterExcludeRigidBody)` over
axis-aligned box colliders: a hit exists iff some collider not owned by
the excluded body meets the ray within `maxToi`.  Models the physics
engine's documented ray-cast semantics (the engine is an external
dependency). -/
def castRay (colliders : List RayCollider) (ray : Ray) (maxToi : ℚ)
    (excluded : ℕ) : Bool :=
  colliders.any fun c => decide (c.owner ≠ excluded) && segmentHitsBox ray maxToi c

/-- `isGrounded()`: with `{width, height} = renderArea().bbox()`, casts
`new R.Ray(rbody.translation(), vec2(width / 2, height + 1))` with
`maxToi = 1`, solid, excluding the body itself, and returns whether a hit
exists. -/
def isGrounded (colliders : List RayCollider) (selfId : ℕ)
    (translation bbox : V2) : Bool :=
  castRay colliders ⟨translation, ⟨bbox.x / 2, bbox.y + 1⟩⟩ 1 selfId

/-- Modelled from the spec: the ray the claim describes — "directed
downward, of length boundingBoxHeight/2 + 1 (one unit past the object's
bottom edge) offset horizontally by half the bounding-box width" — i.e.
direction `(width / 2, height / 2 + 1)`, for comparison with the code's
`isGrounded`. -/
def isGroundedSpec (colliders : List RayCollider) (selfId : ℕ)
    (translation bbox : V2) : Bool :=
  castRay colliders ⟨translation, ⟨bbox.x / 2, bbox.y / 2 + 1⟩⟩ 1 selfId

/-- Claim C2, counterexample.  A 2×4 body at the origin above a slab
spanning `y ∈ [4, 6]`: the code's ray (direction `(1, 5)`) reaches the
slab and reports grounded, but a ray of the claimed length
`height/2 + 1` (direction `(1, 3)`) would not hit anything, so the
claimed iff fails. -/
theorem c2_ray_counterexample :
    isGrounded [⟨1, -10, 10, 4, 6⟩] 0 ⟨0, 0⟩ ⟨2, 4⟩ = true ∧
    isGroundedSpec [⟨1, -10, 10, 4, 6⟩] 0 ⟨0, 0⟩ ⟨2, 4⟩ = false := by
  constructor <;>
    norm_num [isGrounded, isGroundedSpec, castRay, segmentHitsBox, clampAxis,
      min_def, max_def]

/-- Claim C2, amended.  `isGrounded()` casts a ray from the body's
translation with direction `(boundingBoxWidth/2, boundingBoxHeight + 1)`
and max time-of-impact 1 — reaching `height/2 + 1` past the object's
bottom edge, not `1` — excluding the body itself, and returns true iff
some other collider is hit within that segment. -/
theorem c2_isGrounded_ray (colliders : List RayCollider) (selfId : ℕ) (t bb : V2) :
    isGrounded colliders selfId t bb = true ↔
      ∃ c ∈ colliders, c.owner ≠ selfId ∧
        segmentHitsBox ⟨t, ⟨bb.x / 2, bb.y + 1⟩⟩ 1 c = true := by
  simp [isGrounded, castRay, List.any_eq_true, Bool.and_eq_true, decide_eq_true_eq]

/-! ## Joint adapter (`rapierJoint`, lines 525-575) -/

/-- `RapierJointDataOptions`: the kind-tagged options union.  The source
union is closed at the type level; `other` stands for any unrecognized
kind tag arriving at runtime, which the dispatch chain funnels into
`null as never`. -/
inductive JointDataOptions where
  | fixedJoint (frame1 frame2 : Option ℚ) (anchor1 anchor2 : Option V2)
  | prismatic (axis : V2) (anchor1 anchor2 : Option V2)
  | revolute (anchor1 anchor2 : Option V2)
  | rope (length : ℚ) (anchor1 anchor2 : Option V2)
  | spring (restLength stiffness damping : ℚ) (anchor1 anchor2 : Option V2)
  | other (tag : String)
deriving DecidableEq, Repr

/-- The `type` string carried by the options. -/
def JointDataOptions.kindTag : JointDataOptions → String
  | .fixedJoint .. => "fixed"
  | .prismatic .. => "prismatic"
  | .revolute .. => "revolute"
  | .rope .. => "rope"
  | .spring .. => "spring"
  | .other tag => tag

/-- The kind-specific joint parameter bundles built by `R.JointData`. -/
inductive JointData where
  | fixedJoint (a1 : V2) (f1 : ℚ) (a2 : V2) (f2 : ℚ)
  | prismatic (a1 a2 axis : V2)
  | revolute (a1 a2 : V2)
  | rope (len : ℚ) (a1 a2 : V2)
  | spring (restLength stiffness damping : ℚ) (a1 a2 : V2)
deriving DecidableEq, Repr

/-- `const ZERO: RAPIER.Vector2 = { x: 0, y: 0 }` (line 523). -/
def ZERO : V2 := ⟨0, 0⟩

/-- The conditional chain of `rapierJoint`: kind-specific `JointData`
with anchors defaulting to `ZERO` and frames to 0; an unrecognized kind
falls through to `null as never`, modelled as `none`. -/
def jointDataFor : JointDataOptions → Option JointData
  | .fixedJoint f1 f2 a1 a2 =>
      some (.fixedJoint (a1.getD ZERO) (f1.getD 0) (a2.getD ZERO) (f2.getD 0))
  | .prismatic axis a1 a2 => some (.prismatic (a1.getD ZERO) (a2.getD ZERO) axis)
  | .revolute a1 a2 => some (.revolute (a1.getD ZERO) (a2.getD ZERO))
  | .rope len a1 a2 => some (.rope len (a1.getD ZERO) (a2.getD ZERO))
  | .spring r s d a1 a2 => some (.spring r s d (a1.getD ZERO) (a2.getD ZERO))
  | .other _ => none

/-- An impulse joint in the world: its parameter bundle and the two
connected body handles. -/
structure Joint where
  data : JointData
  body1 : ℕ
  body2 : ℕ
deriving DecidableEq, Repr

/-- The joint store of the simulation world. -/
structure JointWorld where
  joints : List Joint
deriving DecidableEq, Repr

/-- `world.createImpulseJoint(data, parent1, parent2, true)`: non-null
joint data appends the joint; the `null` produced by an unrecognized kind
makes the engine's parameter conversion fail before any world mutation
(an external-dependency behavior, modelled as the error result). -/
def createImpulseJoint (w : JointWorld) (data : Option JointData) (b1 b2 : ℕ) :
    JointWorld × Except String Joint :=
  match data with
  | some d => (⟨w.joints ++ [⟨d, b1, b2⟩]⟩, .ok ⟨d, b1, b2⟩)
  | none => (w, .error "invalid joint parameters")

/-- `rapierJoint(opts)`: dispatch on the kind tag and construct the joint
eagerly between the two parent bodies. -/
def rapierJoint (w : JointWorld) (opts : JointDataOptions) (b1 b2 : ℕ) :
    JointWorld × Except String Joint :=
  createImpulseJoint w (jointDataFor opts) b1 b2

/-- Claim C4.  A joint-creation call whose kind tag is outside
{fixed, prismatic, revolute, rope, spring} fails and adds no joint to the
world. -/
theorem c4_unrecognized_joint_kind (w : JointWorld) (opts : JointDataOptions) (b1 b2 : ℕ)
    (h : opts.kindTag ∉ (["fixed", "prismatic", "revolute", "rope", "spring"] : List String)) :
    (rapierJoint w opts b1 b2).1 = w ∧
    (rapierJoint w opts b1 b2).2 = .error "invalid joint parameters" := by
  cases opts with
  | other tag => exact ⟨rfl, rfl⟩
  | fixedJoint f1 f2 a1 a2 => simp [JointDataOptions.kindTag] at h
  | prismatic axis a1 a2 => simp [JointDataOptions.kindTag] at h
  | revolute a1 a2 => simp [JointDataOptions.kindTag] at h
  | rope len a1 a2 => simp [JointDataOptions.kindTag] at h
  | spring r s d a1 a2 => simp [JointDataOptions.kindTag] at h

/-- Witness for `c4_unrecognized_joint_kind`: a `"weld"` kind tag against
the empty joint world errors and leaves the world empty. -/
theorem c4_unrecognized_joint_kind_witness :
    (rapierJoint ⟨[]⟩ (.other "weld") 0 1).1 = ⟨[]⟩ ∧
    (rapierJoint ⟨[]⟩ (.other "weld") 0 1).2 = .error "invalid joint parameters" :=
  c4_unrecognized_joint_kind ⟨[]⟩ (.other "weld") 0 1
    (by simp [JointDataOptions.kindTag])

end KaplayRapier
